import Mathlib

/-!
Shallow embedding of the metrics core of the google-ads tutorial repository:
the row normalizer and aggregation in services/googleAdsService.js
(getCampaigns, getCampaignSummary, getAdSpend) and the ROI analysis in
services/roiAnalysisService.js (calculateProductROI, getRecommendation,
compareProducts).

JavaScript numbers are modelled as rationals (the claims are about the exact
arithmetic, and none of the concrete inputs involved sit at a binary-rounding
or tie boundary).  The JavaScript value undefined, and NaN arising from
arithmetic on undefined, are modelled as the value none of an Option type.
Number.prototype.toFixed(2) produces a decimal string rounded to two places
(half away from zero); we model it as rounding a rational to a multiple of
1/100, which agrees with the string for the nonnegative non-tie values that
appear here.
-/

namespace GoogleAds

/-- A normalized per-entity metric record, as consumed by the aggregation in
getCampaignSummary.  Fields are the ones the reduce reads: cost, clicks,
impressions, conversions, revenue. -/
structure MetricRecord where
  cost : ℚ
  clicks : ℚ
  impressions : ℚ
  conversions : ℚ
  revenue : ℚ
  deriving DecidableEq

/-- The accumulator shape of the reduce in getCampaignSummary
(services/googleAdsService.js lines 523-535). -/
structure AggregateTotals where
  totalCost : ℚ
  totalClicks : ℚ
  totalImpressions : ℚ
  totalConversions : ℚ
  totalRevenue : ℚ
  deriving DecidableEq

/-- The initial accumulator of the reduce: all totals zero. -/
def zeroTotals : AggregateTotals :=
  { totalCost := 0
    totalClicks := 0
    totalImpressions := 0
    totalConversions := 0
    totalRevenue := 0 }

/-- One step of the reduce in getCampaignSummary: add each field of the
campaign record to the corresponding total. -/
def aggStep (acc : AggregateTotals) (campaign : MetricRecord) : AggregateTotals :=
  { totalCost := acc.totalCost + campaign.cost
    totalClicks := acc.totalClicks + campaign.clicks
    totalImpressions := acc.totalImpressions + campaign.impressions
    totalConversions := acc.totalConversions + campaign.conversions
    totalRevenue := acc.totalRevenue + campaign.revenue }

/-- campaigns.reduce(step, zeros): JavaScript reduce with an initial value is
a left fold. -/
def aggregate (campaigns : List MetricRecord) : AggregateTotals :=
  campaigns.foldl aggStep zeroTotals

/-- The five derived ratios computed by getCampaignSummary. -/
structure DerivedMetrics where
  roas : ℚ
  roi : ℚ
  avgCpc : ℚ
  conversionRate : ℚ
  avgCtr : ℚ
  deriving DecidableEq

/-- The zero-guarded ratio computations of getCampaignSummary before display
formatting (the raw divisions; the same formulas appear unformatted in the
second getCampaignSummary, lines 1502-1504). -/
def derivedMetrics (s : AggregateTotals) : DerivedMetrics :=
  { roas := if s.totalCost > 0 then s.totalRevenue / s.totalCost else 0
    roi := if s.totalCost > 0 then ((s.totalRevenue - s.totalCost) / s.totalCost) * 100 else 0
    avgCpc := if s.totalClicks > 0 then s.totalCost / s.totalClicks else 0
    conversionRate := if s.totalClicks > 0 then (s.totalConversions / s.totalClicks) * 100 else 0
    avgCtr := if s.totalImpressions > 0 then (s.totalClicks / s.totalImpressions) * 100 else 0 }

/-- Model of Number.prototype.toFixed(2) on a nonnegative non-tie rational:
round to the nearest multiple of 1/100 (half away from zero; for the
nonnegative values appearing here this is half up, hence floor of 100q+1/2). -/
def toFixed2 (q : ℚ) : ℚ :=
  ((Int.floor (q * 100 + 1 / 2) : ℤ) : ℚ) / 100

/-- getCampaignSummary (lines 538-556) as written: in each positive branch the
ratio is passed through toFixed(2); the zero branch yields the number 0. -/
def derivedMetricsFixed (s : AggregateTotals) : DerivedMetrics :=
  { roas := if s.totalCost > 0 then toFixed2 (s.totalRevenue / s.totalCost) else 0
    roi := if s.totalCost > 0 then toFixed2 (((s.totalRevenue - s.totalCost) / s.totalCost) * 100) else 0
    avgCpc := if s.totalClicks > 0 then toFixed2 (s.totalCost / s.totalClicks) else 0
    conversionRate := if s.totalClicks > 0 then toFixed2 ((s.totalConversions / s.totalClicks) * 100) else 0
    avgCtr := if s.totalImpressions > 0 then toFixed2 ((s.totalClicks / s.totalImpressions) * 100) else 0 }

/-- The four actions produced by getRecommendation. -/
inductive RecAction where
  | INCREASE_BUDGET
  | MAINTAIN_BUDGET
  | OPTIMIZE
  | DECREASE_BUDGET
  deriving DecidableEq

/-- A recommendation as built by getRecommendation.  The message field of the
JavaScript object is display text interpolating roi.toFixed(2) and is not
modelled; action and suggestedBudgetChange are. -/
structure Recommendation where
  action : RecAction
  suggestedBudgetChange : ℚ
  deriving DecidableEq

/-- getRecommendation (services/roiAnalysisService.js lines 1634-1660): an
if/else-if chain on roi.roi, evaluated high to low with strict comparisons. -/
def getRecommendation (roi : ℚ) : Recommendation :=
  if roi > 100 then
    { action := RecAction.INCREASE_BUDGET, suggestedBudgetChange := 25 / 100 }
  else if roi > 30 then
    { action := RecAction.MAINTAIN_BUDGET, suggestedBudgetChange := 0 }
  else if roi > 0 then
    { action := RecAction.OPTIMIZE, suggestedBudgetChange := 0 }
  else
    { action := RecAction.DECREASE_BUDGET, suggestedBudgetChange := -(40 / 100) }

/-- Input adData to calculateProductROI, shaped like the return value of
getProductAdPerformance. -/
structure AdData where
  productId : ℚ
  adSpend : ℚ
  conversions : ℚ
  revenue : ℚ
  roas : ℚ
  deriving DecidableEq

/-- Input salesData to calculateProductROI, shaped like the return value of
getProductSales. -/
structure SalesData where
  productId : ℚ
  revenue : ℚ
  quantity : ℚ
  orderCount : ℚ
  deriving DecidableEq

/-- The per-product ROI object built by calculateProductROI. -/
structure ProductROI where
  productId : ℚ
  adSpend : ℚ
  revenue : ℚ
  profit : ℚ
  roi : ℚ
  roas : ℚ
  quantity : ℚ
  orderCount : ℚ
  recommendation : Recommendation
  deriving DecidableEq

/-- calculateProductROI (lines 1613-1629): the roi field is zero-guarded on
adSpend, and the recommendation is derived from that roi. -/
def calculateProductROI (adData : AdData) (salesData : SalesData) : ProductROI :=
  let roi : ℚ :=
    if adData.adSpend > 0 then ((salesData.revenue - adData.adSpend) / adData.adSpend) * 100 else 0
  { productId := adData.productId
    adSpend := adData.adSpend
    revenue := salesData.revenue
    profit := salesData.revenue - adData.adSpend
    roi := roi
    roas := adData.roas
    quantity := salesData.quantity
    orderCount := salesData.orderCount
    recommendation := getRecommendation roi }

/-- A product ROI object extended with the rank field added by
compareProducts (the JavaScript spread copies every other field verbatim). -/
structure RankedProductROI where
  product : ProductROI
  rank : ℕ
  deriving DecidableEq

/-- The sort comparator of compareProducts, (a, b) => b.roi - a.roi: a sorts
no later than b exactly when b.roi ≤ a.roi (descending roi). -/
def roiDesc (a b : ProductROI) : Bool :=
  decide (b.roi ≤ a.roi)

/-- The map((product, index) => ({...product, rank: index + 1})) step:
attach 1-based ranks in list order, starting from index i. -/
def rankFrom : ℕ → List ProductROI → List RankedProductROI
  | _, [] => []
  | i, p :: ps => { product := p, rank := i + 1 } :: rankFrom (i + 1) ps

/-- compareProducts (lines 1665-1672): sort descending by roi (the JavaScript
sort comparator contract, realised here by merge sort), then attach ranks
index+1. -/
def compareProducts (productsROI : List ProductROI) : List RankedProductROI :=
  rankFrom 0 (productsROI.mergeSort roiDesc)

/-- JavaScript metrics leaves: a present number, or none for the value
undefined (and for the NaN that arithmetic on undefined produces). -/
abbrev JsNum := Option ℚ

/-- Dividing a possibly-undefined JavaScript number by a nonzero constant:
undefined / d is NaN (none); a present value divides through. -/
def jsDivConst (x : JsNum) (d : ℚ) : JsNum :=
  x.map (fun v => v / d)

/-- The campaign sub-object of a raw Google Ads row; each leaf may be absent
(undefined on access). -/
structure RawCampaign where
  id : JsNum
  name : Option String
  status : Option String
  advertising_channel_type : Option String
  deriving DecidableEq

/-- The metrics sub-object of a raw Google Ads row; each leaf may be absent. -/
structure RawMetrics where
  cost_micros : JsNum
  clicks : JsNum
  impressions : JsNum
  conversions : JsNum
  conversions_value : JsNum
  average_cpc : JsNum
  ctr : JsNum
  deriving DecidableEq

/-- A raw row as returned by customer.query: the nested campaign and metrics
objects may themselves be absent, in which case any field access on them
throws a TypeError. -/
structure RawRow where
  campaign : Option RawCampaign
  metrics : Option RawMetrics
  deriving DecidableEq

/-- The only error the normalizer loop can raise: the JavaScript TypeError
from reading a property of undefined, rethrown by the surrounding catch. -/
inductive JsError where
  | typeError
  deriving DecidableEq

/-- The row shape pushed by the getCampaigns loop (lines 494-506). -/
structure CampaignRecord where
  id : JsNum
  name : Option String
  status : Option String
  type : Option String
  cost : JsNum
  clicks : JsNum
  impressions : JsNum
  conversions : JsNum
  revenue : JsNum
  avgCpc : JsNum
  ctr : JsNum
  deriving DecidableEq

/-- The body of the getCampaigns loop on one row: dereference row.campaign and
row.metrics (TypeError if either object is absent), then copy leaves
verbatim — an absent leaf flows through as undefined, and cost_micros and
average_cpc are divided by 1,000,000 (undefined becomes NaN).  No presence
check on leaves is performed. -/
def normalizeRow (row : RawRow) : Except JsError CampaignRecord :=
  match row.campaign, row.metrics with
  | some c, some m =>
      Except.ok
        { id := c.id
          name := c.name
          status := c.status
          type := c.advertising_channel_type
          cost := jsDivConst m.cost_micros 1000000
          clicks := m.clicks
          impressions := m.impressions
          conversions := m.conversions
          revenue := m.conversions_value
          avgCpc := jsDivConst m.average_cpc 1000000
          ctr := m.ctr }
  | _, _ => Except.error JsError.typeError

/-- The row shape pushed by the getAdSpend loop (lines 1421-1429). -/
structure AdSpendRecord where
  campaignId : JsNum
  campaignName : Option String
  cost : JsNum
  clicks : JsNum
  impressions : JsNum
  conversions : JsNum
  conversionValue : JsNum
  deriving DecidableEq

/-- The body of the getAdSpend loop on one row: same access pattern as
getCampaigns, with cost_micros divided by 1,000,000 and the other metrics
leaves copied verbatim. -/
def normalizeAdSpendRow (row : RawRow) : Except JsError AdSpendRecord :=
  match row.campaign, row.metrics with
  | some c, some m =>
      Except.ok
        { campaignId := c.id
          campaignName := c.name
          cost := jsDivConst m.cost_micros 1000000
          clicks := m.clicks
          impressions := m.impressions
          conversions := m.conversions
          conversionValue := m.conversions_value }
  | _, _ => Except.error JsError.typeError

/-- The example totals of the spec: cost 245.67, clicks 1234, impressions
45678, conversions 89, revenue 1567.89. -/
def exampleTotals : AggregateTotals :=
  { totalCost := 24567 / 100
    totalClicks := 1234
    totalImpressions := 45678
    totalConversions := 89
    totalRevenue := 156789 / 100 }

/-- A raw row whose nested objects are present but whose metrics.clicks leaf
is absent. -/
def rowMissingClicks : RawRow :=
  { campaign :=
      some { id := some 1, name := some ("Campaign A"), status := some ("ENABLED"),
             advertising_channel_type := some ("SEARCH") }
    metrics :=
      some { cost_micros := some 5000000, clicks := none, impressions := some 100,
             conversions := some 2, conversions_value := some 50,
             average_cpc := some 250000, ctr := some (5 / 100) } }

/-- A campaign sub-object with every leaf present. -/
def fullCampaign : RawCampaign :=
  { id := some 7
    name := some ("Campaign B")
    status := some ("ENABLED")
    advertising_channel_type := some ("SHOPPING") }

/-- A metrics sub-object with every leaf present. -/
def fullMetrics : RawMetrics :=
  { cost_micros := some 5000000
    clicks := some 10
    impressions := some 100
    conversions := some 2
    conversions_value := some 50
    average_cpc := some 250000
    ctr := some (1 / 10) }

/-- A fully well-formed raw row. -/
def fullRow : RawRow :=
  { campaign := some fullCampaign
    metrics := some fullMetrics }

/-- A concrete metric record used in witnesses. -/
def recA : MetricRecord :=
  { cost := 1, clicks := 2, impressions := 3, conversions := 4, revenue := 5 }

/-- A second concrete metric record used in witnesses. -/
def recB : MetricRecord :=
  { cost := 10, clicks := 20, impressions := 30, conversions := 40, revenue := 50 }

/-- Folding aggStep from any accumulator adds the componentwise sums of the
list to the accumulator. -/
theorem foldl_aggStep_eq (l : List MetricRecord) (acc : AggregateTotals) :
    l.foldl aggStep acc =
      { totalCost := acc.totalCost + (l.map MetricRecord.cost).sum
        totalClicks := acc.totalClicks + (l.map MetricRecord.clicks).sum
        totalImpressions := acc.totalImpressions + (l.map MetricRecord.impressions).sum
        totalConversions := acc.totalConversions + (l.map MetricRecord.conversions).sum
        totalRevenue := acc.totalRevenue + (l.map MetricRecord.revenue).sum } := by
  induction l generalizing acc with
  | nil => cases acc; simp
  | cons c cs ih =>
      simp only [List.foldl_cons, ih, aggStep, List.map_cons, List.sum_cons]
      simp [add_assoc]

/-- The aggregate of a list is the structure of componentwise sums. -/
theorem aggregate_eq_sums (l : List MetricRecord) :
    aggregate l =
      { totalCost := (l.map MetricRecord.cost).sum
        totalClicks := (l.map MetricRecord.clicks).sum
        totalImpressions := (l.map MetricRecord.impressions).sum
        totalConversions := (l.map MetricRecord.conversions).sum
        totalRevenue := (l.map MetricRecord.revenue).sum } := by
  simp [aggregate, foldl_aggStep_eq, zeroTotals]

/-- The ranked list produced by rankFrom carries exactly the input products,
in order. -/
theorem rankFrom_map_product (s : List ProductROI) :
    ∀ i, (rankFrom i s).map RankedProductROI.product = s := by
  induction s with
  | nil => intro i; rfl
  | cons p ps ih => intro i; simp [rankFrom, ih]

/-- The ranks attached by rankFrom starting at index i are i+1, i+2, and so
on, one per element. -/
theorem rankFrom_map_rank (s : List ProductROI) :
    ∀ i, (rankFrom i s).map RankedProductROI.rank = List.range' (i + 1) s.length := by
  induction s with
  | nil => intro i; rfl
  | cons p ps ih => intro i; simp [rankFrom, ih, List.range'_succ]

/-- Claim C1: getRecommendation returns exactly one tier for every roi,
evaluated high to low with strict comparison on each upper bound:
roi > 100 yields INCREASE_BUDGET with +0.25; 30 < roi ≤ 100 yields
MAINTAIN_BUDGET with 0; 0 < roi ≤ 30 yields OPTIMIZE with 0; roi ≤ 0 yields
DECREASE_BUDGET with -0.4.  In particular roi = 100, 30, 0 map to the
lower-tier rule, and the spec examples roi = 150 and roi = -10 hold. -/
theorem getRecommendation_tier_table (roi : ℚ) :
    ((100 < roi →
        getRecommendation roi =
          { action := RecAction.INCREASE_BUDGET, suggestedBudgetChange := 25 / 100 }) ∧
      (30 < roi → roi ≤ 100 →
        getRecommendation roi =
          { action := RecAction.MAINTAIN_BUDGET, suggestedBudgetChange := 0 }) ∧
      (0 < roi → roi ≤ 30 →
        getRecommendation roi =
          { action := RecAction.OPTIMIZE, suggestedBudgetChange := 0 }) ∧
      (roi ≤ 0 →
        getRecommendation roi =
          { action := RecAction.DECREASE_BUDGET, suggestedBudgetChange := -(40 / 100) })) ∧
    (getRecommendation 100 =
        { action := RecAction.MAINTAIN_BUDGET, suggestedBudgetChange := 0 } ∧
      getRecommendation 30 =
        { action := RecAction.OPTIMIZE, suggestedBudgetChange := 0 } ∧
      getRecommendation 0 =
        { action := RecAction.DECREASE_BUDGET, suggestedBudgetChange := -(40 / 100) } ∧
      getRecommendation 150 =
        { action := RecAction.INCREASE_BUDGET, suggestedBudgetChange := 25 / 100 } ∧
      getRecommendation (-10) =
        { action := RecAction.DECREASE_BUDGET, suggestedBudgetChange := -(40 / 100) }) := by
  constructor
  · refine ⟨fun h1 => ?_, fun h1 h2 => ?_, fun h1 h2 => ?_, fun h1 => ?_⟩ <;>
      simp only [getRecommendation]
    · rw [if_pos h1]
    · rw [if_neg (by linarith), if_pos h1]
    · rw [if_neg (by linarith), if_neg (by linarith), if_pos h1]
    · rw [if_neg (by linarith), if_neg (by linarith), if_neg (by linarith)]
  · norm_num [getRecommendation]

/-- Witness for claim C1: the tier table applied at the concrete value
roi = 150 produces INCREASE_BUDGET with fraction 0.25. -/
theorem getRecommendation_tier_table_witness :
    getRecommendation 150 =
      { action := RecAction.INCREASE_BUDGET, suggestedBudgetChange := 25 / 100 } :=
  (getRecommendation_tier_table 150).1.1 (by norm_num)

/-- Claim C2: the derived-metric computations never divide by zero and raise
no error on a zero denominator: totalCost = 0 forces roas = 0 and roi = 0
(both in the raw and in the toFixed-formatted summary), totalClicks = 0
forces avgCpc = 0 and conversionRate = 0, totalImpressions = 0 forces
avgCtr = 0, and calculateProductROI yields roi = 0 when adSpend = 0. -/
theorem derived_zero_denominator_policy (s : AggregateTotals) :
    (s.totalCost = 0 →
      (derivedMetrics s).roas = 0 ∧ (derivedMetrics s).roi = 0 ∧
      (derivedMetricsFixed s).roas = 0 ∧ (derivedMetricsFixed s).roi = 0) ∧
    (s.totalClicks = 0 →
      (derivedMetrics s).avgCpc = 0 ∧ (derivedMetrics s).conversionRate = 0 ∧
      (derivedMetricsFixed s).avgCpc = 0 ∧ (derivedMetricsFixed s).conversionRate = 0) ∧
    (s.totalImpressions = 0 →
      (derivedMetrics s).avgCtr = 0 ∧ (derivedMetricsFixed s).avgCtr = 0) ∧
    (∀ (adData : AdData) (salesData : SalesData), adData.adSpend = 0 →
      (calculateProductROI adData salesData).roi = 0) := by
  refine ⟨fun h => ?_, fun h => ?_, fun h => ?_, fun adData salesData h => ?_⟩ <;>
    simp [derivedMetrics, derivedMetricsFixed, calculateProductROI, h]

/-- Witness for claim C2: at the all-zero totals every guarded metric is 0,
and a product with zero ad spend has roi 0. -/
theorem derived_zero_denominator_policy_witness :
    (derivedMetrics zeroTotals).roas = 0 ∧ (derivedMetrics zeroTotals).roi = 0 ∧
    (derivedMetricsFixed zeroTotals).roas = 0 ∧ (derivedMetricsFixed zeroTotals).roi = 0 ∧
    (derivedMetrics zeroTotals).avgCpc = 0 ∧ (derivedMetrics zeroTotals).conversionRate = 0 ∧
    (derivedMetricsFixed zeroTotals).avgCpc = 0 ∧
    (derivedMetricsFixed zeroTotals).conversionRate = 0 ∧
    (derivedMetrics zeroTotals).avgCtr = 0 ∧ (derivedMetricsFixed zeroTotals).avgCtr = 0 ∧
    (calculateProductROI
        { productId := 1, adSpend := 0, conversions := 2, revenue := 50, roas := 0 }
        { productId := 1, revenue := 50, quantity := 2, orderCount := 1 }).roi = 0 := by
  have h := derived_zero_denominator_policy zeroTotals
  exact ⟨(h.1 rfl).1, (h.1 rfl).2.1, (h.1 rfl).2.2.1, (h.1 rfl).2.2.2,
    (h.2.1 rfl).1, (h.2.1 rfl).2.1, (h.2.1 rfl).2.2.1, (h.2.1 rfl).2.2.2,
    (h.2.2.1 rfl).1, (h.2.2.1 rfl).2,
    h.2.2.2 _ _ rfl⟩

/-- Claim C3: with positive denominators the derived-metric computations are
the exact spec formulas; in the toFixed-formatted summary each metric is the
two-decimal rounding of that same formula. -/
theorem derived_metric_formulas (s : AggregateTotals) :
    (0 < s.totalCost →
      (derivedMetrics s).roas = s.totalRevenue / s.totalCost ∧
      (derivedMetrics s).roi = ((s.totalRevenue - s.totalCost) / s.totalCost) * 100 ∧
      (derivedMetricsFixed s).roas = toFixed2 (s.totalRevenue / s.totalCost) ∧
      (derivedMetricsFixed s).roi =
        toFixed2 (((s.totalRevenue - s.totalCost) / s.totalCost) * 100)) ∧
    (0 < s.totalClicks →
      (derivedMetrics s).avgCpc = s.totalCost / s.totalClicks ∧
      (derivedMetrics s).conversionRate = (s.totalConversions / s.totalClicks) * 100 ∧
      (derivedMetricsFixed s).avgCpc = toFixed2 (s.totalCost / s.totalClicks) ∧
      (derivedMetricsFixed s).conversionRate =
        toFixed2 ((s.totalConversions / s.totalClicks) * 100)) ∧
    (0 < s.totalImpressions →
      (derivedMetrics s).avgCtr = (s.totalClicks / s.totalImpressions) * 100 ∧
      (derivedMetricsFixed s).avgCtr =
        toFixed2 ((s.totalClicks / s.totalImpressions) * 100)) := by
  refine ⟨fun h => ?_, fun h => ?_, fun h => ?_⟩ <;>
    simp [derivedMetrics, derivedMetricsFixed, h]

/-- Witness for claim C3: the formulas instantiated at the spec example
totals, whose denominators are all positive. -/
theorem derived_metric_formulas_witness :
    (derivedMetrics exampleTotals).roas =
      exampleTotals.totalRevenue / exampleTotals.totalCost ∧
    (derivedMetrics exampleTotals).avgCpc =
      exampleTotals.totalCost / exampleTotals.totalClicks ∧
    (derivedMetrics exampleTotals).avgCtr =
      (exampleTotals.totalClicks / exampleTotals.totalImpressions) * 100 :=
  ⟨((derived_metric_formulas exampleTotals).1 (by norm_num [exampleTotals])).1,
   ((derived_metric_formulas exampleTotals).2.1 (by norm_num [exampleTotals])).1,
   ((derived_metric_formulas exampleTotals).2.2 (by norm_num [exampleTotals])).1⟩

/-- Claim C4: each aggregate field is the arithmetic sum of the corresponding
field over the input records, and the empty sequence aggregates to the
all-zero totals rather than an error. -/
theorem aggregate_field_sums (l : List MetricRecord) :
    ((aggregate l).totalCost = (l.map MetricRecord.cost).sum ∧
      (aggregate l).totalClicks = (l.map MetricRecord.clicks).sum ∧
      (aggregate l).totalImpressions = (l.map MetricRecord.impressions).sum ∧
      (aggregate l).totalConversions = (l.map MetricRecord.conversions).sum ∧
      (aggregate l).totalRevenue = (l.map MetricRecord.revenue).sum) ∧
    aggregate [] = zeroTotals := by
  refine ⟨⟨?_, ?_, ?_, ?_, ?_⟩, rfl⟩ <;> rw [aggregate_eq_sums]

/-- Claim C5: aggregation is order-independent: permuting the input list of
metric records leaves the aggregate totals unchanged. -/
theorem aggregate_order_independent (l1 l2 : List MetricRecord) (h : l1.Perm l2) :
    aggregate l1 = aggregate l2 := by
  rw [aggregate_eq_sums, aggregate_eq_sums]
  simp [List.Perm.sum_eq (List.Perm.map _ h)]

/-- Witness for claim C5: swapping the two concrete records recA and recB
does not change the aggregate. -/
theorem aggregate_order_independent_witness :
    aggregate [recB, recA] = aggregate [recA, recB] :=
  aggregate_order_independent [recB, recA] [recA, recB] (List.Perm.swap recA recB [])

/-- Counterexample for claim C6: a row whose metrics.clicks leaf is absent is
not rejected with any error; the loop produces a record with the absent
leaf copied through as undefined. -/
theorem normalizeRow_missing_leaf_no_error :
    normalizeRow rowMissingClicks =
      Except.ok
        { id := some 1, name := some ("Campaign A"), status := some ("ENABLED"),
          type := some ("SEARCH"), cost := some 5, clicks := none,
          impressions := some 100, conversions := some 2, revenue := some 50,
          avgCpc := some (1 / 4), ctr := some (5 / 100) } := by
  simp only [normalizeRow, rowMissingClicks, jsDivConst, Option.map_some]
  norm_num

/-- Amended claim C6: the getCampaigns loop performs no per-field presence
check and defines no MalformedRowError.  When the nested campaign or metrics
object itself is absent, reading a property of it throws a TypeError which
the surrounding catch rethrows to the caller; when both objects are present
the loop always produces a record, copying any absent leaf through as
undefined (NaN for the two divided cost fields). -/
theorem normalizeRow_error_behavior (row : RawRow) :
    (row.campaign = none ∨ row.metrics = none →
      normalizeRow row = Except.error JsError.typeError) ∧
    (∀ c m, row.campaign = some c → row.metrics = some m →
      normalizeRow row =
        Except.ok
          { id := c.id, name := c.name, status := c.status,
            type := c.advertising_channel_type,
            cost := jsDivConst m.cost_micros 1000000,
            clicks := m.clicks, impressions := m.impressions,
            conversions := m.conversions, revenue := m.conversions_value,
            avgCpc := jsDivConst m.average_cpc 1000000, ctr := m.ctr }) := by
  constructor
  · intro h
    rcases h with h | h <;>
      · rw [normalizeRow]
        rcases hc : row.campaign with _ | c <;> rcases hm : row.metrics with _ | m <;>
          simp_all
  · intro c m hc hm
    rw [normalizeRow, hc, hm]

/-- Witness for amended claim C6: a row with no nested objects at all fails
with a TypeError. -/
theorem normalizeRow_error_behavior_witness :
    normalizeRow { campaign := none, metrics := none } = Except.error JsError.typeError :=
  (normalizeRow_error_behavior { campaign := none, metrics := none }).1 (Or.inl rfl)

/-- Claim C7: on a well-formed row both normalizer loops produce a record
whose cost is cost_micros divided by 1,000,000 and whose clicks, impressions,
conversions and revenue are copied verbatim from the nested metrics. -/
theorem normalize_wellformed_rows (row : RawRow) (c : RawCampaign) (m : RawMetrics)
    (hc : row.campaign = some c) (hm : row.metrics = some m)
    (cm cl im cv rv : ℚ)
    (h1 : m.cost_micros = some cm) (h2 : m.clicks = some cl)
    (h3 : m.impressions = some im) (h4 : m.conversions = some cv)
    (h5 : m.conversions_value = some rv) :
    normalizeRow row =
      Except.ok
        { id := c.id, name := c.name, status := c.status,
          type := c.advertising_channel_type,
          cost := some (cm / 1000000), clicks := some cl,
          impressions := some im, conversions := some cv, revenue := some rv,
          avgCpc := jsDivConst m.average_cpc 1000000, ctr := m.ctr } ∧
    normalizeAdSpendRow row =
      Except.ok
        { campaignId := c.id, campaignName := c.name,
          cost := some (cm / 1000000), clicks := some cl,
          impressions := some im, conversions := some cv,
          conversionValue := some rv } := by
  constructor
  · rw [normalizeRow, hc, hm]
    simp [jsDivConst, h1, h2, h3, h4, h5]
  · rw [normalizeAdSpendRow, hc, hm]
    simp [jsDivConst, h1, h2, h3, h4, h5]

/-- Witness for claim C7: the fully populated row fullRow normalizes in both
loops, with cost 5000000 micros becoming 5 currency units. -/
theorem normalize_wellformed_rows_witness :
    normalizeRow fullRow =
      Except.ok
        { id := fullCampaign.id, name := fullCampaign.name,
          status := fullCampaign.status,
          type := fullCampaign.advertising_channel_type,
          cost := some (5000000 / 1000000), clicks := some 10,
          impressions := some 100, conversions := some 2, revenue := some 50,
          avgCpc := jsDivConst fullMetrics.average_cpc 1000000,
          ctr := fullMetrics.ctr } ∧
    normalizeAdSpendRow fullRow =
      Except.ok
        { campaignId := fullCampaign.id, campaignName := fullCampaign.name,
          cost := some (5000000 / 1000000), clicks := some 10,
          impressions := some 100, conversions := some 2,
          conversionValue := some 50 } :=
  normalize_wellformed_rows fullRow fullCampaign fullMetrics rfl rfl
    5000000 10 100 2 50 rfl rfl rfl rfl rfl

/-- The summary roas at the example totals formats to 6.38. -/
theorem exampleTotals_roas_value :
    (derivedMetricsFixed exampleTotals).roas = 638 / 100 := by
  have hfloor :
      Int.floor ((156789 : ℚ) / 100 / (24567 / 100) * 100 + 1 / 2) = 638 := by
    rw [Int.floor_eq_iff]
    norm_num
  simp only [derivedMetricsFixed, exampleTotals, toFixed2]
  rw [if_pos (by norm_num), hfloor]
  norm_num

/-- The summary roi at the example totals formats to 538.21. -/
theorem exampleTotals_roi_value :
    (derivedMetricsFixed exampleTotals).roi = 53821 / 100 := by
  have hfloor :
      Int.floor (((156789 : ℚ) / 100 - 24567 / 100) / (24567 / 100) * 100 * 100 + 1 / 2) =
        53821 := by
    rw [Int.floor_eq_iff]
    norm_num
  simp only [derivedMetricsFixed, exampleTotals, toFixed2]
  rw [if_pos (by norm_num), hfloor]
  norm_num

/-- The summary avgCpc at the example totals formats to 0.20. -/
theorem exampleTotals_avgCpc_value :
    (derivedMetricsFixed exampleTotals).avgCpc = 20 / 100 := by
  have hfloor :
      Int.floor ((24567 : ℚ) / 100 / 1234 * 100 + 1 / 2) = 20 := by
    rw [Int.floor_eq_iff]
    norm_num
  simp only [derivedMetricsFixed, exampleTotals, toFixed2]
  rw [if_pos (by norm_num), hfloor]
  norm_num

/-- The summary conversionRate at the example totals formats to 7.21. -/
theorem exampleTotals_conversionRate_value :
    (derivedMetricsFixed exampleTotals).conversionRate = 721 / 100 := by
  have hfloor :
      Int.floor ((89 : ℚ) / 1234 * 100 * 100 + 1 / 2) = 721 := by
    rw [Int.floor_eq_iff]
    norm_num
  simp only [derivedMetricsFixed, exampleTotals, toFixed2]
  rw [if_pos (by norm_num), hfloor]
  norm_num

/-- The summary avgCtr at the example totals formats to 2.70. -/
theorem exampleTotals_avgCtr_value :
    (derivedMetricsFixed exampleTotals).avgCtr = 270 / 100 := by
  have hfloor :
      Int.floor ((1234 : ℚ) / 45678 * 100 * 100 + 1 / 2) = 270 := by
    rw [Int.floor_eq_iff]
    norm_num
  simp only [derivedMetricsFixed, exampleTotals, toFixed2]
  rw [if_pos (by norm_num), hfloor]
  norm_num

/-- Counterexample for claim C8: at the example totals the computed roi,
rounded to two decimal places, is 538.21 and is not 538.08 as the claim
states. -/
theorem exampleTotals_roi_not_538_08 :
    (derivedMetricsFixed exampleTotals).roi ≠ 53808 / 100 ∧
    (derivedMetricsFixed exampleTotals).roi = 53821 / 100 := by
  rw [exampleTotals_roi_value]
  norm_num

/-- Amended claim C8: at the example totals the summary metrics, each rounded
to two decimals as the code does with toFixed(2), are roas 6.38, roi 538.21,
avgCpc 0.20, conversionRate 7.21, avgCtr 2.70. -/
theorem exampleTotals_derived_values :
    (derivedMetricsFixed exampleTotals).roas = 638 / 100 ∧
    (derivedMetricsFixed exampleTotals).roi = 53821 / 100 ∧
    (derivedMetricsFixed exampleTotals).avgCpc = 20 / 100 ∧
    (derivedMetricsFixed exampleTotals).conversionRate = 721 / 100 ∧
    (derivedMetricsFixed exampleTotals).avgCtr = 270 / 100 :=
  ⟨exampleTotals_roas_value, exampleTotals_roi_value, exampleTotals_avgCpc_value,
   exampleTotals_conversionRate_value, exampleTotals_avgCtr_value⟩

/-- Claim C9: if every field of every input record is nonnegative then every
aggregate total is nonnegative. -/
theorem aggregate_nonneg (l : List MetricRecord)
    (h : ∀ r ∈ l, 0 ≤ r.cost ∧ 0 ≤ r.clicks ∧ 0 ≤ r.impressions ∧
      0 ≤ r.conversions ∧ 0 ≤ r.revenue) :
    0 ≤ (aggregate l).totalCost ∧ 0 ≤ (aggregate l).totalClicks ∧
    0 ≤ (aggregate l).totalImpressions ∧ 0 ≤ (aggregate l).totalConversions ∧
    0 ≤ (aggregate l).totalRevenue := by
  rw [aggregate_eq_sums]
  refine ⟨?_, ?_, ?_, ?_, ?_⟩ <;>
    · apply List.sum_nonneg
      intro x hx
      obtain ⟨r, hr, rfl⟩ := List.mem_map.mp hx
      have := h r hr
      tauto

/-- Witness for claim C9: the aggregate of the nonnegative record recA has
nonnegative totals. -/
theorem aggregate_nonneg_witness :
    0 ≤ (aggregate [recA]).totalCost ∧ 0 ≤ (aggregate [recA]).totalClicks ∧
    0 ≤ (aggregate [recA]).totalImpressions ∧ 0 ≤ (aggregate [recA]).totalConversions ∧
    0 ≤ (aggregate [recA]).totalRevenue :=
  aggregate_nonneg [recA]
    (by
      intro r hr
      simp only [List.mem_singleton] at hr
      subst hr
      norm_num [recA])

/-- Claim C10: compareProducts returns the same multiset of product ROI
results (every non-rank field unchanged), ordered by non-increasing roi, with
the rank field of each element equal to its 1-based position, so the ranks
are exactly 1 through n and the highest-roi product has rank 1. -/
theorem compareProducts_ranking (l : List ProductROI) :
    ((compareProducts l).map RankedProductROI.product).Perm l ∧
    ((compareProducts l).map RankedProductROI.product).Pairwise
      (fun a b => b.roi ≤ a.roi) ∧
    (compareProducts l).map RankedProductROI.rank = List.range' 1 l.length := by
  have hperm : (l.mergeSort roiDesc).Perm l := List.mergeSort_perm l roiDesc
  have hmap : (compareProducts l).map RankedProductROI.product = l.mergeSort roiDesc :=
    rankFrom_map_product _ 0
  refine ⟨?_, ?_, ?_⟩
  · rw [hmap]; exact hperm
  · rw [hmap]
    have hs : (l.mergeSort roiDesc).Pairwise (fun a b => roiDesc a b = true) :=
      List.sorted_mergeSort
        (fun a b c hab hbc => by
          simp only [roiDesc, decide_eq_true_eq] at hab hbc ⊢
          exact le_trans hbc hab)
        (fun a b => by
          simp only [roiDesc]
          rcases le_total b.roi a.roi with h | h <;> simp [h])
        l
    exact hs.imp (fun hab => by simpa [roiDesc] using hab)
  · rw [compareProducts, rankFrom_map_rank]
    rw [hperm.length_eq]

end GoogleAds
